import Mathlib

/-!
Verification of the diagnostics reporter `src/00_Basic/systeminfo.py`.

The program is a straight-line Python module body of eleven statements,
each of the form `print("<Label>:", sys.<attribute>)`.  We embed it
shallowly: the hosting runtime's introspection surface (`sys.version`,
`sys.platform`, ..., `sys.copyright`) becomes a record `SysEnv`; each
`print` appends its label, a separating space, the value's textual
rendering and a terminating newline to a `World`'s standard-output
string; the module body is a literal list of eleven print statements
executed in order by a fold (and, for termination claims, by a
small-step machine that consumes one statement per step).
-/

namespace SystemInfo

/-- The structured value of `sys.version_info`: major, minor, micro,
release level (a string such as "final") and serial, as exposed by the
hosting runtime. -/
structure VersionInfo where
  major : Nat
  minor : Nat
  micro : Nat
  releaselevel : String
  serial : Nat
deriving DecidableEq, Repr

/-- The eleven runtime attributes queried by the module body, in the
shapes the hosting runtime exposes them: strings stay strings,
`sys.maxsize`, `sys.api_version` and `sys.hexversion` are integers,
`sys.path` is a list of directory strings, `sys.version_info` is the
structured tuple.  `flagsRendered` is the host's textual rendering of
the `sys.flags` record (its inner structure is never examined by the
program, which only prints it). -/
structure SysEnv where
  version : String
  platform : String
  executable : String
  byteorder : String
  maxsize : Nat
  path : List String
  versionInfo : VersionInfo
  apiVersion : Nat
  flagsRendered : String
  hexversion : Nat
  copyright : String
deriving DecidableEq, Repr

/-- Names for the eleven `sys` attributes read by the module body. -/
inductive SysQuery
  | version
  | platform
  | executable
  | byteorder
  | maxsize
  | path
  | versionInfo
  | apiVersion
  | flags
  | hexversion
  | copyright
deriving DecidableEq, Repr

/-- Python's `repr` of a plain string (single quotes around the text;
faithful for the quote-free path entries the program prints). -/
def pyStrRepr (s : String) : String := "\x27" ++ s ++ "\x27"

/-- Python's rendering of a list of strings, as produced when
`print` stringifies `sys.path`. -/
def pyListRepr (xs : List String) : String :=
  "[" ++ String.intercalate ", " (xs.map pyStrRepr) ++ "]"

/-- Python's rendering of `sys.version_info`, as produced when `print`
stringifies it. -/
def VersionInfo.render (v : VersionInfo) : String :=
  "sys.version_info(major=" ++ Nat.repr v.major ++
  ", minor=" ++ Nat.repr v.minor ++
  ", micro=" ++ Nat.repr v.micro ++
  ", releaselevel=" ++ pyStrRepr v.releaselevel ++
  ", serial=" ++ Nat.repr v.serial ++ ")"

/-- The text `str(value)` that `print` writes for each queried
attribute: strings verbatim, integers in decimal, `sys.path` as a
Python list rendering, `sys.version_info` as its structured rendering. -/
def queryValue (env : SysEnv) : SysQuery → String
  | .version => env.version
  | .platform => env.platform
  | .executable => env.executable
  | .byteorder => env.byteorder
  | .maxsize => Nat.repr env.maxsize
  | .path => pyListRepr env.path
  | .versionInfo => env.versionInfo.render
  | .apiVersion => Nat.repr env.apiVersion
  | .flags => env.flagsRendered
  | .hexversion => Nat.repr env.hexversion
  | .copyright => env.copyright

/-- One statement of the module body: `print("<label>", sys.<q>)`.
The label string is carried exactly as written in the source
(colon included). -/
inductive Stmt
  | printStmt (label : String) (q : SysQuery)
deriving DecidableEq, Repr

/-- The module body of `systeminfo.py`, line by line: eleven print
statements with the exact label literals of the source, in source
order. -/
def moduleBody : List Stmt :=
  [ .printStmt "Python version:" .version,
    .printStmt "Platform:" .platform,
    .printStmt "Executable:" .executable,
    .printStmt "Byte order:" .byteorder,
    .printStmt "Max size of an integer:" .maxsize,
    .printStmt "Path:" .path,
    .printStmt "Version info:" .versionInfo,
    .printStmt "API version:" .apiVersion,
    .printStmt "Flags:" .flags,
    .printStmt "Hex version:" .hexversion,
    .printStmt "Copyright:" .copyright ]

/-- The observable world the process runs in: the runtime attributes it
can query, the command-line arguments it was invoked with, an abstract
file system and network log (to state that the program never touches
them), and the standard-output stream accumulated so far. -/
structure World where
  sysEnv : SysEnv
  argv : List String
  files : List (String × String)
  network : List String
  stdout : String
deriving DecidableEq, Repr

/-- The world at process start: the given arguments and runtime
attributes, nothing yet written to standard output. -/
def initWorld (argv : List String) (env : SysEnv) (files : List (String × String))
    (network : List String) : World :=
  { sysEnv := env, argv := argv, files := files, network := network, stdout := "" }

/-- Effect of one statement: `print(label, value)` writes the label,
one separating space, the stringified value and a newline to standard
output, and touches nothing else. -/
def execStmt (w : World) : Stmt → World
  | .printStmt label q =>
    { w with stdout := w.stdout ++ label ++ " " ++ queryValue w.sysEnv q ++ "\n" }

/-- Executing a list of statements in order. -/
def execBody (w : World) (stmts : List Stmt) : World :=
  stmts.foldl execStmt w

/-- Running the whole program: execute the module body; the process
then exits with code 0 (the script never raises and never calls
`sys.exit`). -/
def runProgram (w : World) : World × Nat :=
  (execBody w moduleBody, 0)

/-- The record written by one print statement (everything before the
terminating newline). -/
def stmtRecord (env : SysEnv) : Stmt → String
  | .printStmt label q => label ++ " " ++ queryValue env q

/-- The eleven records the program writes, in order. -/
def printedRecords (env : SysEnv) : List String :=
  moduleBody.map (stmtRecord env)

/-- Concatenate records, terminating each with a newline. -/
def mkText : List String → String
  | [] => ""
  | r :: rs => r ++ "\n" ++ mkText rs

/-- The complete standard-output text of one run. -/
def stdoutText (env : SysEnv) : String :=
  mkText (printedRecords env)

/-- Split a character stream at newline characters; a trailing segment
not terminated by a newline still counts as a line. -/
def splitLinesAux : List Char → List Char → List String
  | acc, [] => if acc.isEmpty then [] else [String.mk acc.reverse]
  | acc, c :: cs =>
    if c = '\n' then String.mk acc.reverse :: splitLinesAux [] cs
    else splitLinesAux (c :: acc) cs

/-- The lines of a piece of text. -/
def linesOf (s : String) : List String :=
  splitLinesAux [] s.data

/-- The eleven labels, in the order of the spec's section-3 table
(without the colon). -/
def specLabels : List String :=
  [ "Python version", "Platform", "Executable", "Byte order",
    "Max size of an integer", "Path", "Version info", "API version",
    "Flags", "Hex version", "Copyright" ]

/-- CPython's bit-packed encoding of the version tuple into
`sys.hexversion`: major, minor and micro take one byte each, the
release level one hex digit (0xA alpha, 0xB beta, 0xC candidate,
0xF final) and the serial the final hex digit. -/
def levelCode : String → Nat
  | "alpha" => 10
  | "beta" => 11
  | "candidate" => 12
  | "final" => 15
  | _ => 0

/-- `hexPack v` is the packed integer for version tuple `v`. -/
def hexPack (v : VersionInfo) : Nat :=
  v.major * 2 ^ 24 + v.minor * 2 ^ 16 + v.micro * 2 ^ 8 +
    levelCode v.releaselevel * 2 ^ 4 + v.serial

/-- The hosting runtime's documented contract for the attributes the
program prints: `sys.byteorder` is one of the two literals "little"
and "big", `sys.maxsize` is at least 2^31 - 1, and `sys.hexversion`
is the bit-packed encoding of `sys.version_info`. -/
structure HostContract (env : SysEnv) : Prop where
  byteorder_valid : env.byteorder = "little" ∨ env.byteorder = "big"
  maxsize_lb : 2 ^ 31 - 1 ≤ env.maxsize
  hexversion_packed : env.hexversion = hexPack env.versionInfo

/-- A concrete environment of the kind CPython 3.10.12 on Linux
reports, with every value on a single line. -/
def sampleEnv : SysEnv :=
  { version := "3.10.12 (main, Nov 20 2023, 15:14:05) [GCC 11.4.0]"
  , platform := "linux"
  , executable := "/usr/bin/python3"
  , byteorder := "little"
  , maxsize := 9223372036854775807
  , path := ["", "/usr/lib/python310.zip", "/usr/lib/python3.10"]
  , versionInfo :=
      { major := 3, minor := 10, micro := 12, releaselevel := "final", serial := 0 }
  , apiVersion := 1013
  , flagsRendered := "sys.flags(debug=0, inspect=0, interactive=0, optimize=0)"
  , hexversion := 50990320
  , copyright := "Copyright (c) 2001-2023 Python Software Foundation. All Rights Reserved."
  }

/-- The same environment with the copyright notice CPython actually
ships: a multi-line string containing newline characters. -/
def sampleEnvMultiline : SysEnv :=
  { sampleEnv with
    copyright := "Copyright (c) 2001-2023 Python Software Foundation.\nAll Rights Reserved." }

/-- Small-step view of execution: a machine state is the list of
statements still to run together with the current world.  One step
runs the first remaining statement; a machine with no remaining
statements is terminal (`none`). -/
def step : List Stmt × World → Option (List Stmt × World)
  | ([], _) => none
  | (s :: rest, w) => some (rest, execStmt w s)

/-- Iterate `step` a given number of times. -/
def stepN : Nat → List Stmt × World → Option (List Stmt × World)
  | 0, m => some m
  | n + 1, m => (step m).bind (stepN n)

theorem str_data_append (a b : String) : (a ++ b).data = a.data ++ b.data := rfl

theorem str_append_assoc (a b c : String) : a ++ b ++ c = a ++ (b ++ c) :=
  congrArg String.mk (List.append_assoc a.data b.data c.data)

theorem str_nil_append (s : String) : "" ++ s = s := rfl

theorem execStmt_stdout (w : World) (s : Stmt) :
    (execStmt w s).stdout = w.stdout ++ (stmtRecord w.sysEnv s ++ "\n") := by
  cases s with
  | printStmt label q =>
    simp only [execStmt, stmtRecord, str_append_assoc]

theorem execStmt_frame (w : World) (s : Stmt) :
    (execStmt w s).sysEnv = w.sysEnv ∧ (execStmt w s).argv = w.argv ∧
    (execStmt w s).files = w.files ∧ (execStmt w s).network = w.network := by
  cases s with
  | printStmt label q => exact ⟨rfl, rfl, rfl, rfl⟩

theorem execBody_frame (stmts : List Stmt) (w : World) :
    (execBody w stmts).sysEnv = w.sysEnv ∧ (execBody w stmts).argv = w.argv ∧
    (execBody w stmts).files = w.files ∧ (execBody w stmts).network = w.network := by
  induction stmts generalizing w with
  | nil => exact ⟨rfl, rfl, rfl, rfl⟩
  | cons s rest ih =>
    have h := execStmt_frame w s
    have h2 := ih (execStmt w s)
    exact ⟨h2.1.trans h.1, h2.2.1.trans h.2.1,
      h2.2.2.1.trans h.2.2.1, h2.2.2.2.trans h.2.2.2⟩

theorem execBody_stdout (stmts : List Stmt) (w : World) :
    (execBody w stmts).stdout = w.stdout ++ mkText (stmts.map (stmtRecord w.sysEnv)) := by
  induction stmts generalizing w with
  | nil =>
    simp only [execBody, List.foldl_nil, List.map_nil, mkText]
    exact (congrArg String.mk (List.append_nil w.stdout.data)).symm
  | cons s rest ih =>
    have hs := execStmt_stdout w s
    have henv := (execStmt_frame w s).1
    calc (execBody w (s :: rest)).stdout
        = (execBody (execStmt w s) rest).stdout := rfl
      _ = (execStmt w s).stdout ++ mkText (rest.map (stmtRecord (execStmt w s).sysEnv)) :=
          ih (execStmt w s)
      _ = w.stdout ++ (stmtRecord w.sysEnv s ++ "\n") ++
            mkText (rest.map (stmtRecord w.sysEnv)) := by rw [hs, henv]
      _ = w.stdout ++ mkText ((s :: rest).map (stmtRecord w.sysEnv)) := by
          rw [str_append_assoc]
          rfl

theorem runProgram_stdout (w : World) :
    (runProgram w).1.stdout = w.stdout ++ stdoutText w.sysEnv :=
  execBody_stdout moduleBody w

theorem splitLinesAux_newline (xs : List Char) (h : '\n' ∉ xs) (acc rest : List Char) :
    splitLinesAux acc (xs ++ '\n' :: rest) =
      String.mk (acc.reverse ++ xs) :: splitLinesAux [] rest := by
  induction xs generalizing acc with
  | nil => simp [splitLinesAux]
  | cons x xs ih =>
    have hx : ¬ x = '\n' := fun e => h (by simp [e])
    have hxs : '\n' ∉ xs := fun m => h (List.mem_cons_of_mem _ m)
    simp only [List.cons_append, splitLinesAux, hx, if_false]
    show splitLinesAux (x :: acc) (xs ++ '\n' :: rest) = _
    rw [ih hxs (x :: acc)]
    simp

theorem linesOf_mkText (rs : List String) (h : ∀ r ∈ rs, '\n' ∉ r.data) :
    linesOf (mkText rs) = rs := by
  induction rs with
  | nil => rfl
  | cons r rest ih =>
    have hr : '\n' ∉ r.data := h r (List.mem_cons_self r rest)
    have hrest : ∀ x ∈ rest, '\n' ∉ x.data := fun x hx => h x (List.mem_cons_of_mem _ hx)
    have hd : (mkText (r :: rest)).data = r.data ++ '\n' :: (mkText rest).data := by
      show (r ++ "\n" ++ mkText rest).data = _
      rw [str_append_assoc, str_data_append]
      rfl
    show splitLinesAux [] (mkText (r :: rest)).data = r :: rest
    rw [hd, splitLinesAux_newline r.data hr [] (mkText rest).data]
    show String.mk ([].reverse ++ r.data) :: linesOf (mkText rest) = r :: rest
    rw [ih hrest]
    rfl

theorem mem_printedRecords (env : SysEnv) (r : String) (hr : r ∈ printedRecords env)
    (hv : ∀ q : SysQuery, '\n' ∉ (queryValue env q).data) : '\n' ∉ r.data := by
  have key : ∀ (label : String) (q : SysQuery), '\n' ∉ label.data →
      '\n' ∉ (stmtRecord env (.printStmt label q)).data := by
    intro label q hl hmem
    rw [show (stmtRecord env (.printStmt label q)).data
          = label.data ++ (" ".data ++ (queryValue env q).data) from by
        show (label ++ " " ++ queryValue env q).data = _
        rw [str_append_assoc, str_data_append, str_data_append]] at hmem
    rcases List.mem_append.mp hmem with hmem1 | hmem2
    · exact hl hmem1
    · rcases List.mem_append.mp hmem2 with hmem3 | hmem4
      · simp at hmem3
      · exact hv q hmem4
  simp only [printedRecords, moduleBody, List.map_cons, List.map_nil, List.mem_cons,
    List.not_mem_nil, or_false] at hr
  rcases hr with rfl | rfl | rfl | rfl | rfl | rfl | rfl | rfl | rfl | rfl | rfl <;>
    exact key _ _ (by decide)

theorem linesOf_stdoutText (env : SysEnv)
    (hv : ∀ q : SysQuery, '\n' ∉ (queryValue env q).data) :
    linesOf (stdoutText env) = printedRecords env :=
  linesOf_mkText (printedRecords env) (fun r hr => mem_printedRecords env r hr hv)

theorem printedRecords_explicit (env : SysEnv) :
    printedRecords env =
      [ "Python version" ++ ": " ++ env.version,
        "Platform" ++ ": " ++ env.platform,
        "Executable" ++ ": " ++ env.executable,
        "Byte order" ++ ": " ++ env.byteorder,
        "Max size of an integer" ++ ": " ++ Nat.repr env.maxsize,
        "Path" ++ ": " ++ pyListRepr env.path,
        "Version info" ++ ": " ++ env.versionInfo.render,
        "API version" ++ ": " ++ Nat.repr env.apiVersion,
        "Flags" ++ ": " ++ env.flagsRendered,
        "Hex version" ++ ": " ++ Nat.repr env.hexversion,
        "Copyright" ++ ": " ++ env.copyright ] := rfl

theorem sample_contract : HostContract sampleEnv :=
  ⟨Or.inl rfl, by decide, by decide⟩

/-- Claim C2: for each of the eleven labeled attributes, the record
written to standard output for that attribute is exactly the label,
then a colon, then a single space, then the attribute's value, in the
fixed source order. -/
theorem record_format_label_colon_space_value (env : SysEnv) :
    printedRecords env =
      [ "Python version" ++ ": " ++ env.version,
        "Platform" ++ ": " ++ env.platform,
        "Executable" ++ ": " ++ env.executable,
        "Byte order" ++ ": " ++ env.byteorder,
        "Max size of an integer" ++ ": " ++ Nat.repr env.maxsize,
        "Path" ++ ": " ++ pyListRepr env.path,
        "Version info" ++ ": " ++ env.versionInfo.render,
        "API version" ++ ": " ++ Nat.repr env.apiVersion,
        "Flags" ++ ": " ++ env.flagsRendered,
        "Hex version" ++ ": " ++ Nat.repr env.hexversion,
        "Copyright" ++ ": " ++ env.copyright ] :=
  printedRecords_explicit env

/-- Claim C1 (amended): a run writes exactly eleven labeled records in
the spec's fixed order, and when no queried attribute value contains a
newline character the standard output consists of exactly eleven
lines, the i-th line beginning with the i-th label.  (As originally
stated — exactly eleven lines for every run — the claim fails when a
value such as CPython's multi-line copyright notice contains a
newline; see the counterexample.) -/
theorem eleven_labeled_lines (env : SysEnv)
    (hv : ∀ q : SysQuery, '\n' ∉ (queryValue env q).data) :
    (linesOf (stdoutText env)).length = 11 ∧
    linesOf (stdoutText env) = printedRecords env ∧
    List.Forall₂ (fun label line => label.data <+: line.data)
      specLabels (linesOf (stdoutText env)) := by
  have h := linesOf_stdoutText env hv
  refine ⟨by rw [h]; rfl, h, ?_⟩
  rw [h, printedRecords_explicit]
  exact .cons ⟨':' :: ' ' :: env.version.data, rfl⟩
    (.cons ⟨':' :: ' ' :: env.platform.data, rfl⟩
    (.cons ⟨':' :: ' ' :: env.executable.data, rfl⟩
    (.cons ⟨':' :: ' ' :: env.byteorder.data, rfl⟩
    (.cons ⟨':' :: ' ' :: (Nat.repr env.maxsize).data, rfl⟩
    (.cons ⟨':' :: ' ' :: (pyListRepr env.path).data, rfl⟩
    (.cons ⟨':' :: ' ' :: env.versionInfo.render.data, rfl⟩
    (.cons ⟨':' :: ' ' :: (Nat.repr env.apiVersion).data, rfl⟩
    (.cons ⟨':' :: ' ' :: env.flagsRendered.data, rfl⟩
    (.cons ⟨':' :: ' ' :: (Nat.repr env.hexversion).data, rfl⟩
    (.cons ⟨':' :: ' ' :: env.copyright.data, rfl⟩ .nil))))))))))

/-- Witness for the amended claim C1, at a concrete single-line
environment. -/
theorem eleven_labeled_lines_witness :
    (linesOf (stdoutText sampleEnv)).length = 11 ∧
    linesOf (stdoutText sampleEnv) = printedRecords sampleEnv ∧
    List.Forall₂ (fun label line => label.data <+: line.data)
      specLabels (linesOf (stdoutText sampleEnv)) :=
  eleven_labeled_lines sampleEnv (by intro q; cases q <;> decide)

/-- Counterexample to claim C1 as stated: with CPython's actual
multi-line copyright string the run writes twelve lines, not eleven. -/
theorem eleven_lines_refuted :
    (linesOf (stdoutText sampleEnvMultiline)).length = 12 ∧
    (linesOf (stdoutText sampleEnvMultiline)).length ≠ 11 := by
  constructor <;> decide

/-- Claim C3: every run that completes exits with code 0, having
printed all eleven records; there is no completing code path with a
non-zero exit code (`runProgram` is the only run function and its exit
code is the constant 0). -/
theorem exit_code_zero (w : World) :
    (runProgram w).2 = 0 ∧ (printedRecords w.sysEnv).length = 11 ∧
    (runProgram w).1.stdout = w.stdout ++ stdoutText w.sysEnv :=
  ⟨rfl, rfl, runProgram_stdout w⟩

/-- Claim C4: the standard-output text is a deterministic function of
the eleven queried attribute values alone: two runs whose environments
agree on every queried attribute produce identical output. -/
theorem output_deterministic (e1 e2 : SysEnv)
    (h1 : e1.version = e2.version) (h2 : e1.platform = e2.platform)
    (h3 : e1.executable = e2.executable) (h4 : e1.byteorder = e2.byteorder)
    (h5 : e1.maxsize = e2.maxsize) (h6 : e1.path = e2.path)
    (h7 : e1.versionInfo = e2.versionInfo) (h8 : e1.apiVersion = e2.apiVersion)
    (h9 : e1.flagsRendered = e2.flagsRendered) (h10 : e1.hexversion = e2.hexversion)
    (h11 : e1.copyright = e2.copyright) :
    stdoutText e1 = stdoutText e2 := by
  have he : e1 = e2 := by cases e1; cases e2; simp_all
  rw [he]

/-- Witness for claim C4 at a concrete environment. -/
theorem output_deterministic_witness :
    stdoutText sampleEnv = stdoutText sampleEnv :=
  output_deterministic sampleEnv sampleEnv rfl rfl rfl rfl rfl rfl rfl rfl rfl rfl rfl

/-- Claim C5: command-line arguments never influence the run: for any
argument list, standard output and exit code coincide with those of
the argument-free invocation in the same environment (no statement of
the module body reads `argv`). -/
theorem argv_ignored (argv : List String) (env : SysEnv)
    (files : List (String × String)) (network : List String) :
    (runProgram (initWorld argv env files network)).1.stdout =
      (runProgram (initWorld [] env files network)).1.stdout ∧
    (runProgram (initWorld argv env files network)).2 =
      (runProgram (initWorld [] env files network)).2 :=
  ⟨rfl, rfl⟩

/-- Claim C6: under the hosting runtime's contract, the Byte order
record is one of exactly the two texts "Byte order: little" and
"Byte order: big". -/
theorem byteorder_little_or_big (env : SysEnv) (h : HostContract env) :
    (printedRecords env).getD 3 "" = "Byte order: little" ∨
    (printedRecords env).getD 3 "" = "Byte order: big" := by
  have hrec : (printedRecords env).getD 3 "" = "Byte order:" ++ " " ++ env.byteorder := rfl
  rcases h.byteorder_valid with hb | hb
  · left
    rw [hrec, hb]
    rfl
  · right
    rw [hrec, hb]
    rfl

/-- Witness for claim C6 at a concrete little-endian environment. -/
theorem byteorder_little_or_big_witness :
    (printedRecords sampleEnv).getD 3 "" = "Byte order: little" ∨
    (printedRecords sampleEnv).getD 3 "" = "Byte order: big" :=
  byteorder_little_or_big sampleEnv sample_contract

/-- Claim C7: the Max size of an integer record carries the decimal
rendering of `sys.maxsize`, which under the hosting runtime's contract
is strictly positive. -/
theorem maxsize_positive_decimal (env : SysEnv) (h : HostContract env) :
    (printedRecords env).getD 4 "" = "Max size of an integer: " ++ Nat.repr env.maxsize ∧
    0 < env.maxsize :=
  ⟨rfl, lt_of_lt_of_le (by decide) h.maxsize_lb⟩

/-- Witness for claim C7 at a concrete 64-bit environment. -/
theorem maxsize_positive_decimal_witness :
    (printedRecords sampleEnv).getD 4 "" =
      "Max size of an integer: " ++ Nat.repr sampleEnv.maxsize ∧
    0 < sampleEnv.maxsize :=
  maxsize_positive_decimal sampleEnv sample_contract

/-- Claim C8: the only effect of a run is appending text to standard
output: the queried runtime attributes, the argument list, the file
system and the network log are all unchanged, and the exit code is 0. -/
theorem only_stdout_side_effect (w : World) :
    (runProgram w).1.sysEnv = w.sysEnv ∧
    (runProgram w).1.argv = w.argv ∧
    (runProgram w).1.files = w.files ∧
    (runProgram w).1.network = w.network ∧
    (runProgram w).1.stdout = w.stdout ++ stdoutText w.sysEnv ∧
    (runProgram w).2 = 0 :=
  ⟨(execBody_frame moduleBody w).1, (execBody_frame moduleBody w).2.1,
    (execBody_frame moduleBody w).2.2.1, (execBody_frame moduleBody w).2.2.2,
    runProgram_stdout w, rfl⟩

/-- Claim C9: under the hosting runtime's contract, the integer on the
Hex version record is exactly the fixed bit-packed encoding of the
version tuple shown on the Version info record. -/
theorem hexversion_matches_version_tuple (env : SysEnv) (h : HostContract env) :
    (printedRecords env).getD 9 "" = "Hex version: " ++ Nat.repr (hexPack env.versionInfo) ∧
    (printedRecords env).getD 6 "" = "Version info: " ++ env.versionInfo.render := by
  constructor
  · have hrec : (printedRecords env).getD 9 "" =
        "Hex version: " ++ Nat.repr env.hexversion := rfl
    rw [hrec, h.hexversion_packed]
  · rfl

/-- Witness for claim C9 at a concrete CPython 3.10.12 environment. -/
theorem hexversion_matches_version_tuple_witness :
    (printedRecords sampleEnv).getD 9 "" =
      "Hex version: " ++ Nat.repr (hexPack sampleEnv.versionInfo) ∧
    (printedRecords sampleEnv).getD 6 "" =
      "Version info: " ++ sampleEnv.versionInfo.render :=
  hexversion_matches_version_tuple sampleEnv sample_contract

/-- Claim C10: every invocation terminates: the module body is a
straight-line list of exactly eleven statements, the small-step
machine started on it reaches, in exactly eleven steps, the terminal
state holding the final world, and no further step is possible. -/
theorem terminates_in_eleven_steps (w : World) :
    moduleBody.length = 11 ∧
    stepN 11 (moduleBody, w) = some ([], (runProgram w).1) ∧
    step ([], (runProgram w).1) = none :=
  ⟨rfl, rfl, rfl⟩

end SystemInfo
